import Mathlib

/-!
Verification of the `eyebright` backlight-brightness tool (`src/main.rs`).

The development shallowly embeds the two core components of the program:

* the action parser (`impl FromStr for Action`, i.e. `Action::from_str`),
  modelled on `List Char` (Rust iterates over `str` characters; every
  character the parser inspects — `+`, `-`, `%`, ASCII digits — is one
  byte, so byte slicing and character lists agree);
* the brightness policy (`Action::calculate_new_percentage`) and its caller
  (`Action::execute`).

Modelling conventions:

* `u8`/`u32` values are `Nat`; the `u8` overflow bound (≤ 255) appears
  explicitly where `str::parse::<u8>` enforces it.
* `f64` arithmetic is modelled by exact rational arithmetic (`ℚ`).  All
  quantities the program feeds to `f64` here are small integers divided by
  small integers, and every concrete final result proved below agrees with
  the program's own exhaustive unit tests, which run the real `f64` code.
* `f64::round` (round half away from zero) is modelled by `f64_round`;
  the `{:.0}` float formatting used by the `Get` report (round half to
  even) is modelled by `round_half_even`; `as u32` on a clamped
  non-negative value is `Int.toNat`.
* The `FnOnce` callback `get_brightness` is modelled by an `Except` value
  (the single result the one-shot callback would produce), and every
  policy result records how many times the callback was invoked, so that
  "does not consult `get_current`" is a provable statement.
* Device I/O is modelled by an explicit `Device` state (current level and
  maximum level); `Action::execute` becomes a state transformer that also
  reports the value written (if any) and the text printed (if any).
-/

namespace Eyebright

/-- The three set modes of the program (`enum SetMode` in the source). -/
inductive SetMode where
  | Absolute
  | RelativeUp
  | RelativeDown
deriving DecidableEq, Repr

/-- Actions of the program (`enum Action` in the source): `Set(u8, SetMode)`
or `Get`.  The `u8` magnitude is modelled as `Nat`; the parser only ever
produces magnitudes ≤ 100. -/
inductive Action where
  | Set : Nat → SetMode → Action
  | Get : Action
deriving DecidableEq, Repr

/-- Model of Rust `str::parse::<u8>`: an optional single leading `+`
followed by one or more ASCII digits, whose value must fit in a `u8`
(≤ 255, otherwise a `PosOverflow` error).  A leading `-`, an empty string,
or any non-digit character is an error.  Errors are collapsed to `none`. -/
def parse_u8 (s : List Char) : Option Nat :=
  let t := match s with
    | '+' :: rest => rest
    | _ => s
  if t = [] then none
  else if t.all (fun c => c.isDigit) then
    let n := t.foldl (fun acc c => 10 * acc + (c.toNat - 48)) 0
    if n ≤ 255 then some n else none
  else none

/-- Model of `Action::from_str` (the `FromStr` impl in the source):
empty input is `Get`; a leading `+`/`-` selects `RelativeUp`/`RelativeDown`
and is stripped, otherwise the mode is `Absolute`; one trailing `%` is
stripped; the remainder is parsed by `str::parse::<u8>`; magnitudes above
100 are rejected.  Both error cases are collapsed to `none`. -/
def Action.from_str (s : List Char) : Option Action :=
  match s with
  | [] => some Action.Get
  | c :: rest =>
    let sm :=
      if c = '+' then (rest, SetMode.RelativeUp)
      else if c = '-' then (rest, SetMode.RelativeDown)
      else (c :: rest, SetMode.Absolute)
    let t := if sm.1.getLast? = some '%' then sm.1.dropLast else sm.1
    match parse_u8 t with
    | none => none
    | some percentage =>
      if percentage > 100 then none
      else some (Action.Set percentage sm.2)

/-- Parsing entry point on `String`s (what `str::parse::<Action>` does). -/
def Action.parse (s : String) : Option Action :=
  Action.from_str s.toList

/-- Model of `f64::clamp(0.0, 1.0)` as used in `Action::execute`:
`if self < min then min else if self > max then max else self`. -/
def clamp01 (q : ℚ) : ℚ :=
  if q < 0 then 0 else if q > 1 then 1 else q

/-- Model of `f64::round`: round half away from zero. -/
def f64_round (q : ℚ) : ℤ :=
  if 0 ≤ q then ⌊q + 1/2⌋ else -⌊-q + 1/2⌋

/-- Model of Rust's `{:.0}` float formatting applied to a value: round to
the nearest integer, ties to even. -/
def round_half_even (q : ℚ) : ℤ :=
  if q - ⌊q⌋ < 1/2 then ⌊q⌋
  else if 1/2 < q - ⌊q⌋ then ⌊q⌋ + 1
  else if 2 ∣ ⌊q⌋ then ⌊q⌋ else ⌊q⌋ + 1

/-- The text printed by `println!("\x7b:.0\x7d%", q)` for a non-negative
value `q`: the rounded integer in decimal followed by `%`. -/
def fmt_fixed0_pct (q : ℚ) : List Char :=
  Nat.toDigits 10 (round_half_even q).toNat ++ ['%']

/-- Result of `Action::calculate_new_percentage`: the `Result<Option<f64>, Error>`
value, the number of times the `get_brightness` callback was invoked, and
the text printed to standard output (by the `Get` arm), if any. -/
structure CalcResult where
  result : Except Unit (Option ℚ)
  get_calls : Nat
  printed : Option (List Char)

/-- Model of `Action::calculate_new_percentage`.  The `FnOnce` callback is
modelled by the single `Except` value it would return; `get_calls` counts
its invocations. -/
def Action.calculate_new_percentage (a : Action) (max_brightness : Nat)
    (get_brightness : Except Unit Nat) : CalcResult :=
  match a with
  | Action.Set change SetMode.RelativeUp =>
    match get_brightness with
    | Except.error e => ⟨Except.error e, 1, none⟩
    | Except.ok brightness =>
      let current : ℚ := (brightness : ℚ) / (max_brightness : ℚ)
      let delta : ℚ := (change : ℚ) / 100
      ⟨Except.ok (some (current + delta)), 1, none⟩
  | Action.Set change SetMode.RelativeDown =>
    match get_brightness with
    | Except.error e => ⟨Except.error e, 1, none⟩
    | Except.ok brightness =>
      let current : ℚ := (brightness : ℚ) / (max_brightness : ℚ)
      let delta : ℚ := (change : ℚ) / 100
      ⟨Except.ok (some (current - delta)), 1, none⟩
  | Action.Set percentage SetMode.Absolute =>
    ⟨Except.ok (some ((percentage : ℚ) / 100)), 0, none⟩
  | Action.Get =>
    match get_brightness with
    | Except.error e => ⟨Except.error e, 1, none⟩
    | Except.ok brightness =>
      ⟨Except.ok none, 1,
        some (fmt_fixed0_pct (100 * ((brightness : ℚ) / (max_brightness : ℚ))))⟩

/-- The device state: the two sysfs files `brightness` and `max_brightness`. -/
structure Device where
  brightness : Nat
  max_brightness : Nat
deriving DecidableEq, Repr

/-- Result of `Action::execute` on a device: the device afterwards, the
value written to the brightness file (if a write happened), the number of
reads of the brightness file, and the text printed (if any). -/
structure ExecResult where
  device : Device
  written : Option Nat
  get_calls : Nat
  printed : Option (List Char)

/-- Model of `Action::execute`: read `max_brightness`, run the policy with
a callback reading the current brightness (which always succeeds here),
and if the policy produced a percentage, clamp it to `[0, 1]`, scale by
`max_brightness`, round, and write the result back. -/
def Action.execute (a : Action) (d : Device) : ExecResult :=
  let c := a.calculate_new_percentage d.max_brightness (Except.ok d.brightness)
  match c.result with
  | Except.error _ => ⟨d, none, c.get_calls, c.printed⟩
  | Except.ok none => ⟨d, none, c.get_calls, c.printed⟩
  | Except.ok (some percentage) =>
    let clamped := clamp01 percentage
    let new_value := (f64_round ((d.max_brightness : ℚ) * clamped)).toNat
    ⟨⟨new_value, d.max_brightness⟩, some new_value, c.get_calls, c.printed⟩

/-- Stripping the optional leading sign, in the words of the specification
(used to state when parsing fails; mirrors the sign handling the parser
itself performs). -/
def strip_sign (s : List Char) : List Char :=
  match s with
  | [] => []
  | c :: rest =>
    if c = '+' then rest
    else if c = '-' then rest
    else c :: rest

/-- Stripping one optional trailing `%`, in the words of the specification. -/
def strip_percent (t : List Char) : List Char :=
  if t.getLast? = some '%' then t.dropLast else t

/-- The mode selected by the first character of a non-empty input. -/
def sign_mode (c : Char) : SetMode :=
  if c = '+' then SetMode.RelativeUp
  else if c = '-' then SetMode.RelativeDown
  else SetMode.Absolute

-- Sanity checks on concrete inputs (mirroring the repository's unit tests).
example : Action.parse "" = some Action.Get := by decide
example : Action.parse "42" = some (Action.Set 42 SetMode.Absolute) := by decide
example : Action.parse "+10%" = some (Action.Set 10 SetMode.RelativeUp) := by decide
example : Action.parse "-0" = some (Action.Set 0 SetMode.RelativeDown) := by decide
example : Action.parse "101" = none := by decide
example : Action.parse "1.2" = none := by decide
example : Action.parse "%" = none := by decide
example : Action.parse "++5" = some (Action.Set 5 SetMode.RelativeUp) := by decide

/-- On non-empty input, `Action.from_str` parses the remainder after the
sign and percent stripping and pairs it with the mode from the first
character. -/
theorem from_str_cons (c : Char) (cs : List Char) :
    Action.from_str (c :: cs) =
      match parse_u8 (strip_percent (strip_sign (c :: cs))) with
      | none => none
      | some percentage =>
        if percentage > 100 then none
        else some (Action.Set percentage (sign_mode c)) := by
  by_cases hplus : c = '+'
  · simp [Action.from_str, strip_sign, strip_percent, sign_mode, hplus]
  · by_cases hminus : c = '-'
    · simp [Action.from_str, strip_sign, strip_percent, sign_mode, hplus, hminus]
    · simp [Action.from_str, strip_sign, strip_percent, sign_mode, hplus, hminus]

/-- C1: for every magnitude `m` in `0..=100`, every leading sign in
`\x7b"", "+", "-"\x7d` and optional trailing `%`, parsing the assembled string
succeeds and yields `Set m Absolute` (no sign), `Set m RelativeUp` (`+`),
or `Set m RelativeDown` (`-`); parsing the empty string yields `Get`. -/
theorem parser_totality_valid_grammar :
    (∀ m : Nat, m ≤ 100 →
      Action.parse (Nat.repr m) = some (Action.Set m SetMode.Absolute) ∧
      Action.parse (Nat.repr m ++ "%") = some (Action.Set m SetMode.Absolute) ∧
      Action.parse ("+" ++ Nat.repr m) = some (Action.Set m SetMode.RelativeUp) ∧
      Action.parse ("+" ++ Nat.repr m ++ "%") = some (Action.Set m SetMode.RelativeUp) ∧
      Action.parse ("-" ++ Nat.repr m) = some (Action.Set m SetMode.RelativeDown) ∧
      Action.parse ("-" ++ Nat.repr m ++ "%") = some (Action.Set m SetMode.RelativeDown)) ∧
    Action.parse "" = some Action.Get := by
  constructor
  · decide
  · decide

/-- Witness for C1 at `m = 42`. -/
theorem parser_totality_valid_grammar_witness :
    Action.parse "42" = some (Action.Set 42 SetMode.Absolute) ∧
    Action.parse "42%" = some (Action.Set 42 SetMode.Absolute) ∧
    Action.parse "+42" = some (Action.Set 42 SetMode.RelativeUp) ∧
    Action.parse "+42%" = some (Action.Set 42 SetMode.RelativeUp) ∧
    Action.parse "-42" = some (Action.Set 42 SetMode.RelativeDown) ∧
    Action.parse "-42%" = some (Action.Set 42 SetMode.RelativeDown) :=
  parser_totality_valid_grammar.1 42 (by decide)

/-- C6: parsing fails exactly when, after stripping the optional leading
sign and one optional trailing `%`, the remainder is not accepted by the
unsigned-integer parser or the parsed integer exceeds 100; in particular
all the listed concrete strings fail to parse. -/
theorem parser_rejects_invalid :
    (Action.parse "hi" = none ∧ Action.parse "max" = none ∧
     Action.parse "min" = none ∧ Action.parse "101" = none ∧
     Action.parse "101%" = none ∧ Action.parse "1.2" = none ∧
     Action.parse "+1.2" = none ∧ Action.parse "-1.2" = none ∧
     Action.parse "5.3%" = none ∧ Action.parse "+5.3%" = none ∧
     Action.parse "-5.3%" = none ∧ Action.parse "+" = none ∧
     Action.parse "-" = none ∧ Action.parse "%" = none) ∧
    (∀ s : List Char, Action.from_str s = none ↔
      (s ≠ [] ∧ (parse_u8 (strip_percent (strip_sign s)) = none ∨
        ∃ p, parse_u8 (strip_percent (strip_sign s)) = some p ∧ 100 < p))) := by
  refine ⟨by decide, fun s => ?_⟩
  cases s with
  | nil => simp [Action.from_str]
  | cons c cs =>
    rw [from_str_cons]
    cases hp : parse_u8 (strip_percent (strip_sign (c :: cs))) with
    | none => simp [hp]
    | some p =>
      by_cases hgt : p > 100
      · simp [hp, hgt]
      · simp [hp, hgt]

/-- Witness for C6 at the concrete input `"hi"`. -/
theorem parser_rejects_invalid_witness :
    Action.from_str ['h', 'i'] = none ↔
      (['h', 'i'] ≠ ([] : List Char) ∧
        (parse_u8 (strip_percent (strip_sign ['h', 'i'])) = none ∨
          ∃ p, parse_u8 (strip_percent (strip_sign ['h', 'i'])) = some p ∧ 100 < p)) :=
  parser_rejects_invalid.2 ['h', 'i']

/-- C9: inputs whose remainder after the mode sign begins with a second
`+` are accepted rather than rejected, because `str::parse::<u8>` itself
accepts one leading `+`: `"++5"` parses to `Set 5 RelativeUp` and `"-+5"`
to `Set 5 RelativeDown`. -/
theorem parser_accepts_double_sign :
    Action.parse "++5" = some (Action.Set 5 SetMode.RelativeUp) ∧
    Action.parse "-+5" = some (Action.Set 5 SetMode.RelativeDown) ∧
    parse_u8 ['+', '5'] = some 5 := by
  decide

/-- Adding one half to a natural number and taking the floor gives the
number back. -/
lemma floor_nat_add_half (n : ℕ) : ⌊(n : ℚ) + 1/2⌋ = n := by
  rw [Int.floor_eq_iff]
  push_cast
  constructor <;> norm_num

/-- Rounding an exact natural number is the identity. -/
lemma f64_round_natCast (n : ℕ) : f64_round (n : ℚ) = n := by
  unfold f64_round
  rw [if_pos (by positivity)]
  simpa using floor_nat_add_half n

/-- Clamping a value already in `[0, 1]` leaves it unchanged. -/
lemma clamp01_eq_self {q : ℚ} (h0 : 0 ≤ q) (h1 : q ≤ 1) : clamp01 q = q := by
  unfold clamp01
  rw [if_neg (by linarith), if_neg (by linarith)]

/-- Clamping a value above one yields one. -/
lemma clamp01_eq_one {q : ℚ} (h : 1 < q) : clamp01 q = 1 := by
  unfold clamp01
  rw [if_neg (by linarith), if_pos h]

/-- Clamping a negative value yields zero. -/
lemma clamp01_eq_zero {q : ℚ} (h : q < 0) : clamp01 q = 0 := by
  unfold clamp01
  rw [if_pos h]

/-- The clamped value is non-negative. -/
lemma clamp01_nonneg (q : ℚ) : 0 ≤ clamp01 q := by
  unfold clamp01
  split
  · exact le_refl 0
  · split
    · exact zero_le_one
    · linarith [not_lt.mp (by assumption : ¬ q < 0)]

/-- The clamped value is at most one. -/
lemma clamp01_le_one (q : ℚ) : clamp01 q ≤ 1 := by
  unfold clamp01
  split
  · exact zero_le_one
  · split
    · exact le_refl 1
    · linarith [not_lt.mp (by assumption : ¬ q > 1)]

/-- When the policy yields a percentage, `execute` writes it clamped,
scaled by the maximum level, and rounded. -/
lemma execute_written_of_ok_some (a : Action) (d : Device) (frac : ℚ)
    (h : (a.calculate_new_percentage d.max_brightness
            (Except.ok d.brightness)).result = Except.ok (some frac)) :
    (a.execute d).written =
      some (f64_round ((d.max_brightness : ℚ) * clamp01 frac)).toNat := by
  simp only [Action.execute]
  rw [h]

/-- When the policy yields no percentage, `execute` writes nothing. -/
lemma execute_written_of_ok_none (a : Action) (d : Device)
    (h : (a.calculate_new_percentage d.max_brightness
            (Except.ok d.brightness)).result = Except.ok none) :
    (a.execute d).written = none := by
  simp only [Action.execute]
  rw [h]

/-- C2: against `max_level = 100`, `Set i Absolute` returns
`some (i / 100)` from the policy for any callback result, invoking the
callback zero times, and the final written level is exactly `i`. -/
theorem absolute_policy_exact (i cur : Nat) (hi : i ≤ 100) (hcur : cur ≤ 100) :
    (∀ g : Except Unit Nat,
      (Action.Set i SetMode.Absolute).calculate_new_percentage 100 g =
        ⟨Except.ok (some ((i : ℚ) / 100)), 0, none⟩) ∧
    ((Action.Set i SetMode.Absolute).execute ⟨cur, 100⟩).written = some i := by
  refine ⟨fun g => rfl, ?_⟩
  rw [execute_written_of_ok_some (Action.Set i SetMode.Absolute) ⟨cur, 100⟩
        ((i : ℚ) / 100) rfl]
  have h0 : (0 : ℚ) ≤ (i : ℚ) / 100 := by positivity
  have h1 : (i : ℚ) / 100 ≤ 1 := by
    rw [div_le_one (by norm_num : (0 : ℚ) < 100)]
    exact_mod_cast hi
  rw [clamp01_eq_self h0 h1]
  have hmul : ((Device.mk cur 100).max_brightness : ℚ) * ((i : ℚ) / 100) = (i : ℚ) := by
    show ((100 : Nat) : ℚ) * ((i : ℚ) / 100) = (i : ℚ)
    push_cast
    field_simp
  rw [hmul, f64_round_natCast]
  simp

/-- Witness for C2 at `i = 42`, `cur = 7`. -/
theorem absolute_policy_exact_witness :
    ((Action.Set 42 SetMode.Absolute).calculate_new_percentage 100 (Except.error ()) =
      ⟨Except.ok (some ((42 : ℚ) / 100)), 0, none⟩) ∧
    ((Action.Set 42 SetMode.Absolute).execute ⟨7, 100⟩).written = some 42 :=
  ⟨(absolute_policy_exact 42 7 (by decide) (by decide)).1 (Except.error ()),
   (absolute_policy_exact 42 7 (by decide) (by decide)).2⟩

/-- C3: against `max_level = 100`, `Set 10 RelativeUp` writes `cur + 10`
for `cur` in `0..=90` and exactly `100` for `cur` in `91..=100`;
`Set 10 RelativeDown` writes `cur - 10` for `cur` in `10..=100` and
exactly `0` for `cur` in `0..=9`. -/
theorem relative_ten_policy (cur : Nat) :
    (cur ≤ 90 →
      ((Action.Set 10 SetMode.RelativeUp).execute ⟨cur, 100⟩).written = some (cur + 10)) ∧
    (91 ≤ cur → cur ≤ 100 →
      ((Action.Set 10 SetMode.RelativeUp).execute ⟨cur, 100⟩).written = some 100) ∧
    (10 ≤ cur → cur ≤ 100 →
      ((Action.Set 10 SetMode.RelativeDown).execute ⟨cur, 100⟩).written = some (cur - 10)) ∧
    (cur ≤ 9 →
      ((Action.Set 10 SetMode.RelativeDown).execute ⟨cur, 100⟩).written = some 0) := by
  have hup : ∀ q : ℚ, ((cur : ℚ) / ((100 : Nat) : ℚ) + ((10 : Nat) : ℚ) / 100) = q →
      ((Action.Set 10 SetMode.RelativeUp).execute ⟨cur, 100⟩).written =
        some (f64_round (((100 : Nat) : ℚ) * clamp01 q)).toNat := by
    intro q hq
    rw [execute_written_of_ok_some (Action.Set 10 SetMode.RelativeUp) ⟨cur, 100⟩ q
          (by rw [← hq]; rfl)]
  have hdown : ∀ q : ℚ, ((cur : ℚ) / ((100 : Nat) : ℚ) - ((10 : Nat) : ℚ) / 100) = q →
      ((Action.Set 10 SetMode.RelativeDown).execute ⟨cur, 100⟩).written =
        some (f64_round (((100 : Nat) : ℚ) * clamp01 q)).toNat := by
    intro q hq
    rw [execute_written_of_ok_some (Action.Set 10 SetMode.RelativeDown) ⟨cur, 100⟩ q
          (by rw [← hq]; rfl)]
  refine ⟨?_, ?_, ?_, ?_⟩
  · intro h
    rw [hup (((cur : ℚ) + 10) / 100) (by push_cast; ring)]
    have hc : (cur : ℚ) ≤ 90 := by exact_mod_cast h
    have h0 : (0 : ℚ) ≤ ((cur : ℚ) + 10) / 100 := by positivity
    have h1 : ((cur : ℚ) + 10) / 100 ≤ 1 := by
      rw [div_le_one (by norm_num : (0 : ℚ) < 100)]
      linarith
    rw [clamp01_eq_self h0 h1]
    have hmul : ((100 : Nat) : ℚ) * (((cur : ℚ) + 10) / 100) = ((cur + 10 : Nat) : ℚ) := by
      push_cast
      field_simp
    rw [hmul, f64_round_natCast]
    simp
    omega
  · intro h _
    rw [hup (((cur : ℚ) + 10) / 100) (by push_cast; ring)]
    have hc : (91 : ℚ) ≤ (cur : ℚ) := by exact_mod_cast h
    have hgt : (1 : ℚ) < ((cur : ℚ) + 10) / 100 := by
      rw [lt_div_iff (by norm_num : (0 : ℚ) < 100)]
      linarith
    rw [clamp01_eq_one hgt, mul_one, f64_round_natCast]
    simp
  · intro h10 _
    have hc10 : (10 : ℚ) ≤ (cur : ℚ) := by exact_mod_cast h10
    have hc100 : (cur : ℚ) ≤ 100 := by exact_mod_cast (by assumption : cur ≤ 100)
    rw [hdown (((cur : ℚ) - 10) / 100) (by push_cast; ring)]
    have h0 : (0 : ℚ) ≤ ((cur : ℚ) - 10) / 100 := by
      apply div_nonneg _ (by norm_num)
      linarith
    have h1 : ((cur : ℚ) - 10) / 100 ≤ 1 := by
      rw [div_le_one (by norm_num : (0 : ℚ) < 100)]
      linarith
    rw [clamp01_eq_self h0 h1]
    have hmul : ((100 : Nat) : ℚ) * (((cur : ℚ) - 10) / 100) = ((cur - 10 : Nat) : ℚ) := by
      rw [Nat.cast_sub h10]
      push_cast
      field_simp
    rw [hmul, f64_round_natCast]
    simp
  · intro h
    have hc : (cur : ℚ) ≤ 9 := by exact_mod_cast h
    rw [hdown (((cur : ℚ) - 10) / 100) (by push_cast; ring)]
    have hneg : ((cur : ℚ) - 10) / 100 < 0 := by
      apply div_neg_of_neg_of_pos _ (by norm_num)
      linarith
    rw [clamp01_eq_zero hneg, mul_zero]
    have hzero : f64_round (0 : ℚ) = 0 := by
      simpa using f64_round_natCast 0
    rw [hzero]
    rfl

/-- Witness for C3 at `cur = 50`, `95`, `50`, `5`. -/
theorem relative_ten_policy_witness :
    ((Action.Set 10 SetMode.RelativeUp).execute ⟨50, 100⟩).written = some 60 ∧
    ((Action.Set 10 SetMode.RelativeUp).execute ⟨95, 100⟩).written = some 100 ∧
    ((Action.Set 10 SetMode.RelativeDown).execute ⟨50, 100⟩).written = some 40 ∧
    ((Action.Set 10 SetMode.RelativeDown).execute ⟨5, 100⟩).written = some 0 :=
  ⟨(relative_ten_policy 50).1 (by decide),
   (relative_ten_policy 95).2.1 (by decide) (by decide),
   (relative_ten_policy 50).2.2.1 (by decide) (by decide),
   (relative_ten_policy 5).2.2.2 (by decide)⟩

/-- C4: for every current level, maximum level, and magnitude, the policy
for `Set magnitude RelativeUp` invokes the callback once and returns
`some (current / max_level + magnitude / 100)`, and `RelativeDown`
likewise returns `some (current / max_level - magnitude / 100)`; the
returned fraction is not clamped (it can exceed one or be negative) and
no error is raised. -/
theorem relative_policy_unclamped :
    (∀ (current max_level magnitude : Nat),
      (Action.Set magnitude SetMode.RelativeUp).calculate_new_percentage max_level
          (Except.ok current) =
        ⟨Except.ok (some ((current : ℚ) / (max_level : ℚ) + (magnitude : ℚ) / 100)),
          1, none⟩ ∧
      (Action.Set magnitude SetMode.RelativeDown).calculate_new_percentage max_level
          (Except.ok current) =
        ⟨Except.ok (some ((current : ℚ) / (max_level : ℚ) - (magnitude : ℚ) / 100)),
          1, none⟩) ∧
    (∃ q : ℚ, ((Action.Set 10 SetMode.RelativeUp).calculate_new_percentage 100
        (Except.ok 100)).result = Except.ok (some q) ∧ 1 < q) ∧
    (∃ q : ℚ, ((Action.Set 10 SetMode.RelativeDown).calculate_new_percentage 100
        (Except.ok 0)).result = Except.ok (some q) ∧ q < 0) := by
  refine ⟨fun current max_level magnitude => ⟨rfl, rfl⟩, ⟨_, rfl, ?_⟩, ⟨_, rfl, ?_⟩⟩
  · push_cast
    norm_num
  · push_cast
    norm_num

/-- C5: whenever the policy returns `some frac`, the caller clamps `frac`
to `[0, 1]` and writes `round (frac_clamped * max_level)`, where the
rounding is round half away from zero (for non-negative arguments,
`⌊q + 1/2⌋`, so ties round up). -/
theorem caller_clamps_and_rounds :
    (∀ (a : Action) (d : Device) (frac : ℚ),
      (a.calculate_new_percentage d.max_brightness
          (Except.ok d.brightness)).result = Except.ok (some frac) →
      (a.execute d).written =
        some (f64_round ((d.max_brightness : ℚ) * clamp01 frac)).toNat) ∧
    (∀ q : ℚ, 0 ≤ q → f64_round q = ⌊q + 1/2⌋) ∧
    (∀ n : Nat, f64_round ((n : ℚ) + 1/2) = n + 1) := by
  refine ⟨execute_written_of_ok_some, fun q hq => if_pos hq, fun n => ?_⟩
  unfold f64_round
  rw [if_pos (by positivity)]
  rw [show (n : ℚ) + 1/2 + 1/2 = ((n + 1 : Nat) : ℚ) by push_cast; ring]
  rw [Int.floor_natCast]
  push_cast
  ring

/-- Witness for C5: `Set 50 Absolute` on a device at `20/100`. -/
theorem caller_clamps_and_rounds_witness :
    ((Action.Set 50 SetMode.Absolute).calculate_new_percentage 100
        (Except.ok 20)).result = Except.ok (some ((50 : ℚ) / 100)) ∧
    ((Action.Set 50 SetMode.Absolute).execute ⟨20, 100⟩).written =
      some (f64_round ((100 : ℚ) * clamp01 ((50 : ℚ) / 100))).toNat :=
  ⟨rfl, caller_clamps_and_rounds.1 (Action.Set 50 SetMode.Absolute) ⟨20, 100⟩
          ((50 : ℚ) / 100) rfl⟩

/-- C7: for every device state, executing `Get` produces no write and
leaves the device unchanged, the policy returns `none`, and the
current-brightness callback is invoked exactly once. -/
theorem get_leaves_device_unchanged (d : Device) :
    (Action.Get.execute d).written = none ∧
    (Action.Get.execute d).device = d ∧
    (Action.Get.execute d).get_calls = 1 ∧
    (Action.Get.calculate_new_percentage d.max_brightness
        (Except.ok d.brightness)).result = Except.ok none :=
  ⟨rfl, rfl, rfl, rfl⟩

/-- When the policy fails, `execute` writes nothing. -/
lemma execute_written_of_error (a : Action) (d : Device) (e : Unit)
    (h : (a.calculate_new_percentage d.max_brightness
            (Except.ok d.brightness)).result = Except.error e) :
    (a.execute d).written = none := by
  simp only [Action.execute]
  rw [h]

/-- C8 counterexample: on a device at level 50 of 100, the `Get` report is
the zero-decimal string `"50%"`, not the one-decimal string `"50.0%"`. -/
theorem get_report_one_decimal_counterexample :
    (Action.Get.execute ⟨50, 100⟩).printed = some ("50%".toList) ∧
    "50%".toList ≠ "50.0%".toList := by
  constructor
  · show some (fmt_fixed0_pct (100 * (((50 : Nat) : ℚ) / ((100 : Nat) : ℚ)))) =
      some ("50%".toList)
    rw [show (100 * (((50 : Nat) : ℚ) / ((100 : Nat) : ℚ))) = (50 : ℚ) by norm_num]
    unfold fmt_fixed0_pct
    rw [show round_half_even (50 : ℚ) = 50 by unfold round_half_even; norm_num]
    rfl
  · decide

/-- C8 as amended: the `Get` report renders the percentage with zero
decimal places (`\x7b:.0\x7d` formatting: nearest integer, ties to even)
followed by `%`; at level 25 of 200 (exactly 12.5 percent) it prints
`"12%"`. -/
theorem get_report_zero_decimals :
    (∀ b m : Nat, (Action.Get.execute ⟨b, m⟩).printed =
      some (fmt_fixed0_pct (100 * ((b : ℚ) / (m : ℚ))))) ∧
    (Action.Get.execute ⟨25, 200⟩).printed = some ("12%".toList) := by
  refine ⟨fun b m => rfl, ?_⟩
  show some (fmt_fixed0_pct (100 * (((25 : Nat) : ℚ) / ((200 : Nat) : ℚ)))) =
    some ("12%".toList)
  rw [show (100 * (((25 : Nat) : ℚ) / ((200 : Nat) : ℚ))) = (25 / 2 : ℚ) by norm_num]
  unfold fmt_fixed0_pct
  rw [show round_half_even (25 / 2 : ℚ) = 12 by unfold round_half_even; norm_num]
  rfl

/-- C10: whenever `execute` performs a write on a device with
`max_level ≥ 1`, the written value is at most `max_level` (and, being a
natural number, at least 0): the fraction is clamped to `[0, 1]` before
scaling, so the rounded result cannot exceed the maximum. -/
theorem written_value_bounded (a : Action) (d : Device)
    (hmax : 1 ≤ d.max_brightness) (w : Nat)
    (hw : (a.execute d).written = some w) : w ≤ d.max_brightness := by
  cases hres : (a.calculate_new_percentage d.max_brightness
      (Except.ok d.brightness)).result with
  | error e =>
    rw [execute_written_of_error a d e hres] at hw
    exact absurd hw (by simp)
  | ok o =>
    cases o with
    | none =>
      rw [execute_written_of_ok_none a d hres] at hw
      exact absurd hw (by simp)
    | some q =>
      rw [execute_written_of_ok_some a d q hres] at hw
      have hw' : w = (f64_round ((d.max_brightness : ℚ) * clamp01 q)).toNat :=
        (Option.some.inj hw).symm
      subst hw'
      have h0 : (0 : ℚ) ≤ (d.max_brightness : ℚ) * clamp01 q :=
        mul_nonneg (Nat.cast_nonneg _) (clamp01_nonneg q)
      have hle : (d.max_brightness : ℚ) * clamp01 q ≤ (d.max_brightness : ℚ) :=
        mul_le_of_le_one_right (Nat.cast_nonneg _) (clamp01_le_one q)
      have hfl : f64_round ((d.max_brightness : ℚ) * clamp01 q) ≤
          (d.max_brightness : ℤ) := by
        unfold f64_round
        rw [if_pos h0]
        calc ⌊(d.max_brightness : ℚ) * clamp01 q + 1/2⌋
            ≤ ⌊(d.max_brightness : ℚ) + 1/2⌋ := Int.floor_le_floor (by linarith)
          _ = (d.max_brightness : ℤ) := floor_nat_add_half _
      exact Int.toNat_le.mpr hfl

/-- Witness for C10: `Set 0 Absolute` on a device at `0/100` writes 0,
which is at most 100. -/
theorem written_value_bounded_witness : (0 : Nat) ≤ (100 : Nat) :=
  written_value_bounded (Action.Set 0 SetMode.Absolute) ⟨0, 100⟩ (by decide) 0
    (by
      rw [execute_written_of_ok_some (Action.Set 0 SetMode.Absolute) ⟨0, 100⟩
            (((0 : Nat) : ℚ) / 100) rfl]
      rw [show (((0 : Nat) : ℚ) / 100) = 0 by norm_num,
          clamp01_eq_self (le_refl (0 : ℚ)) zero_le_one, mul_zero,
          show f64_round (0 : ℚ) = 0 from by simpa using f64_round_natCast 0]
      rfl)

end Eyebright
